/-
Verification of the FastAPI geodata service (`app/routes.py`) against its
natural-language specification.

Shallow embedding notes:
* Coordinates are rational numbers (`ℚ`); the Python floats carry decimal
  literals and the claims under study are order/selection properties, not
  floating-point rounding properties.
* CRS reprojection (`to_crs`, EPSG:4326 → EPSG:27700) is an external library
  call; handlers are parametrised by an arbitrary projection function
  `proj : Point → Point`, exactly as the code treats it as a black box.
* Shapely's Euclidean distance is monotone in its square, and every use in
  the code is a comparison (argmin / radius test), so distances are embedded
  as squared Euclidean distances over ℚ, avoiding irrational square roots.
* `JSONResponse(status_code = s, content = {"error": m})` is embedded as
  `ApiResp.error s m`; a 200 response with a JSON body as `ApiResp.success`.
-/
import Mathlib

namespace Geodata

/-- A coordinate pair.  Before reprojection this is (longitude, latitude)
in degrees (the order used by `Point(longitude, latitude)` in the code);
after reprojection it is (easting, northing) in metres. -/
abbrev Point : Type := ℚ × ℚ

/-- Squared Euclidean distance between two points.  The code computes
`gdf.geometry.distance(p)` (Euclidean distance in the projected CRS) and
only ever compares distances; comparing squares is equivalent. -/
def sqDistance (p q : Point) : ℚ :=
  (p.1 - q.1) ^ 2 + (p.2 - q.2) ^ 2

/-- One row of a GeoDataFrame whose geometry column holds points:
a geometry plus the row's non-geometry attributes. -/
structure Feature (α : Type) where
  geom : Point
  props : α
deriving DecidableEq, Repr

/-- Reproject one feature, `Feature`-level image of `gdf.to_crs(...)`
(`transform_to_bng` in the code). -/
def mapGeom (proj : Point → Point) (f : Feature α) : Feature α :=
  ⟨proj f.geom, f.props⟩

/-- Embedding of the route results: `success` is a 200 `JSONResponse` with
the given body, `error s m` is `JSONResponse(status_code = s,
content = {"error": m})`. -/
inductive ApiResp (α : Type) where
  | success : α → ApiResp α
  | error : Nat → String → ApiResp α
deriving DecidableEq, Repr

/-- HTTP status of a response (a plain 200 `JSONResponse` has status 200). -/
def respStatus : ApiResp α → Nat
  | .success _ => 200
  | .error s _ => s

/-- Embedding of
`gdf["distance"] = gdf.geometry.distance(p); gdf.loc[gdf["distance"].idxmin()]`:
the feature of the collection at minimal (squared) distance from `p`,
together with that distance.  pandas `idxmin` returns the FIRST index
attaining the minimum, which this recursion reproduces: the head is kept
exactly when its distance is ≤ the minimum of the tail. -/
def nearestFeature (p : Point) : List (Feature α) → Option (Feature α × ℚ)
  | [] => none
  | f :: fs =>
    match nearestFeature p fs with
    | none => some (f, sqDistance p f.geom)
    | some (g, m) =>
      if sqDistance p f.geom ≤ m then some (f, sqDistance p f.geom)
      else some (g, m)

/-- Body of a successful `/nearest-gp-pharmacy` response: the selected GP
row and pharmacy row (in the metric CRS) with their squared distances.
The JSON serialisation picks named fields out of these rows. -/
structure NearestPair (α β : Type) where
  gp : Feature α
  gpSqDist : ℚ
  pharmacy : Feature β
  pharmacySqDist : ℚ
deriving DecidableEq, Repr

/-- Embedding of the `/nearest-gp-pharmacy` handler.  `proj` is the
EPSG:4326 → EPSG:27700 reprojection (black box), `gp_gdf` and
`pharmacy_gdf` the loaded collections in the geographic CRS. -/
def nearest_gp_pharmacy (proj : Point → Point)
    (gp_gdf : List (Feature α)) (pharmacy_gdf : List (Feature β))
    (latitude longitude : ℚ) : ApiResp (NearestPair α β) :=
  if ¬ (-90 ≤ latitude ∧ latitude ≤ 90) ∨ ¬ (-180 ≤ longitude ∧ longitude ≤ 180) then
    .error 400 "Invalid latitude or longitude."
  else if gp_gdf.isEmpty then
    .error 500 "GP data not available"
  else if pharmacy_gdf.isEmpty then
    .error 500 "Pharmacy data not available"
  else
    let gp_gdf_bng := gp_gdf.map (mapGeom proj)
    let pharmacy_gdf_bng := pharmacy_gdf.map (mapGeom proj)
    let input_point := proj (longitude, latitude)
    match nearestFeature input_point gp_gdf_bng with
    | none => .error 500 "GP data not available"
    | some (nearest_gp, dgp) =>
      match nearestFeature nearest_gp.geom pharmacy_gdf_bng with
      | none => .error 500 "Pharmacy data not available"
      | some (nearest_pharmacy_to_gp, dph) =>
        .success ⟨nearest_gp, dgp, nearest_pharmacy_to_gp, dph⟩

/-- `METRES_IN_MILE` constant from the radius handler. -/
def METRES_IN_MILE : ℚ := 1609.34

/-- Embedding of the `/gp-within-radius` handler.  The buffer of the centre
point by `radius_metres` is the disc of that radius; shapely's `within`
holds for a point strictly inside the buffer polygon (boundary excluded),
i.e. distance < radius, i.e. squared distance < radius².  The boolean-mask
selection `gdf[gdf.geometry.within(buffer)]` is a filter that keeps the
original row order. -/
def gp_within_radius (proj : Point → Point) (gp_gdf : List (Feature α))
    (latitude longitude radius : ℚ) : ApiResp (List (Feature α)) :=
  if ¬ (-90 ≤ latitude ∧ latitude ≤ 90) ∨ ¬ (-180 ≤ longitude ∧ longitude ≤ 180) then
    .error 400 "Invalid latitude or longitude."
  else if radius ≤ 0 then
    .error 400 "Invalid radius."
  else if gp_gdf.isEmpty then
    .error 500 "GP data not available"
  else
    let gp_gdf_bng := gp_gdf.map (mapGeom proj)
    let centre_point := proj (longitude, latitude)
    let radius_metres := radius * METRES_IN_MILE
    let gps_within_radius := gp_gdf_bng.filter
      (fun f => decide (sqDistance centre_point f.geom < radius_metres ^ 2))
    if gps_within_radius.isEmpty then
      .error 404 "No GPs found within the specified radius"
    else
      .success gps_within_radius

/-! ### Spatial aggregation (`/bins-in-nature-areas`)

Polygon geometry is kept abstract: the handler is parametrised by a polygon
type `π` and a point-in-polygon test `within : Point → π → Bool`, the
predicate geopandas' `sjoin(..., predicate="within")` evaluates. -/

/-- One row of the nature-reserves GeoDataFrame. -/
structure NatureReserveRow (π : Type) where
  geometry : π
  lv_name : String
  lv_details : String
  description : String
deriving DecidableEq, Repr

/-- One row of the conservation-areas GeoDataFrame. -/
structure ConservationRow (π : Type) where
  geometry : π
  name : String
deriving DecidableEq, Repr

/-- The mutable module-level state touched by `/bins-in-nature-areas`:
the three loaded GeoDataFrames.  A pandas column assignment
`gdf["bin_count"] = ...` sets a whole column at once, so the (initially
absent) `bin_count` columns are modelled as `Option (List Nat)` alongside
the immutable loaded rows; at load time both are `none`. -/
structure BinsState (π : Type) where
  bins_gdf : List Point
  nature_reserves_gdf : List (NatureReserveRow π)
  nr_bin_count : Option (List Nat)
  conservation_areas_gdf : List (ConservationRow π)
  ca_bin_count : Option (List Nat)
deriving DecidableEq, Repr

/-- Embedding of `gpd.sjoin(pts, polys, how="inner", predicate="within")`
restricted to what the handler consumes: the list of matched
(left index, `index_right`) pairs, one pair per point/polygon match, in
left-then-right order. -/
def sjoinWithin (within : Point → π → Bool) (pts : List Point)
    (polys : List π) : List (Nat × Nat) :=
  pts.enum.flatMap fun ip =>
    polys.enum.filterMap fun jq =>
      if within ip.2 jq.2 then some (ip.1, jq.1) else none

/-- Embedding of
`counts = joined.groupby("index_right").size();
 gdf.index.map(counts).fillna(0).astype(int)`:
for every polygon index `j` of the polygon frame (in row order), the number
of join pairs whose `index_right` is `j`, with 0 when `j` has no matches. -/
def binCounts (within : Point → π → Bool) (pts : List Point)
    (polys : List π) : List Nat :=
  (List.range polys.length).map fun j =>
    ((sjoinWithin within pts polys).filter (fun pr => pr.2 == j)).length

/-- One entry of `nature_reserve_bin_count` in the response (the constant
`"type": "Nature Reserve"` field is omitted). -/
structure ReserveEntry where
  name : String
  details : String
  description : String
  binCount : Nat
deriving DecidableEq, Repr

/-- One entry of `conservation_area_bin_count` in the response. -/
structure AreaEntry where
  name : String
  binCount : Nat
deriving DecidableEq, Repr

/-- Body of a successful `/bins-in-nature-areas` response. -/
structure BinsReport where
  nature_reserve_bin_count : List ReserveEntry
  conservation_area_bin_count : List AreaEntry
deriving DecidableEq, Repr

/-- Embedding of the `/bins-in-nature-areas` handler (`find_bins`).
It returns the response together with the post-request state: the handler
assigns the freshly computed `bin_count` columns INTO the shared
module-level polygon GeoDataFrames before iterating them to build the
response. -/
def find_bins (within : Point → π → Bool) (s : BinsState π) :
    ApiResp BinsReport × BinsState π :=
  if s.bins_gdf.isEmpty then
    (.error 500 "Dog or Litter Bin data not available", s)
  else if s.nature_reserves_gdf.isEmpty then
    (.error 500 "Nature Reserve data not available", s)
  else if s.conservation_areas_gdf.isEmpty then
    (.error 500 "Conservation Area data not available", s)
  else
    let nrCounts := binCounts within s.bins_gdf
      (s.nature_reserves_gdf.map (·.geometry))
    let caCounts := binCounts within s.bins_gdf
      (s.conservation_areas_gdf.map (·.geometry))
    let s2 := { s with nr_bin_count := some nrCounts,
                       ca_bin_count := some caCounts }
    let report : BinsReport :=
      { nature_reserve_bin_count :=
          (s.nature_reserves_gdf.zip nrCounts).map fun rc =>
            ⟨rc.1.lv_name, rc.1.lv_details, rc.1.description, rc.2⟩,
        conservation_area_bin_count :=
          (s.conservation_areas_gdf.zip caCounts).map fun rc =>
            ⟨rc.1.name, rc.2⟩ }
    (.success report, s2)

/-- The number of point features matched by the join: points lying within
at least one polygon of the collection. -/
def matchedPoints (within : Point → π → Bool) (pts : List Point)
    (polys : List π) : Nat :=
  (pts.filter fun p => polys.any fun q => within p q).length

/-! ### Upload summariser (`POST /upload-geojson/`)

The uploaded bytes are abstracted to the two projections the handler uses:
`size` (the value of `len(file_content)`) and `loads` (the result of
`json.loads(file_content)`: a JSON value, or the `json.JSONDecodeError`
message — `JSONDecodeError` is a subclass of `ValueError`, so it is caught
by the `except ValueError` arm).  Any real byte string determines both
consistently; a JSON document can be padded with trailing whitespace to
reach any size at or beyond its minimal one. -/

/-- Parsed JSON values as produced by `json.loads`. -/
inductive Json where
  | null : Json
  | bool : Bool → Json
  | num : ℚ → Json
  | str : String → Json
  | arr : List Json → Json
  | obj : List (String × Json) → Json
deriving Repr

mutual

/-- Structural equality of JSON values (Python `==` on parsed values). -/
def Json.beq : Json → Json → Bool
  | .null, .null => true
  | .bool a, .bool b => a == b
  | .num a, .num b => a == b
  | .str a, .str b => a == b
  | .arr xs, .arr ys => Json.beqArr xs ys
  | .obj xs, .obj ys => Json.beqObj xs ys
  | _, _ => false

/-- Elementwise equality of JSON arrays. -/
def Json.beqArr : List Json → List Json → Bool
  | [], [] => true
  | x :: xs, y :: ys => Json.beq x y && Json.beqArr xs ys
  | _, _ => false

/-- Entrywise equality of JSON objects. -/
def Json.beqObj : List (String × Json) → List (String × Json) → Bool
  | [], [] => true
  | (k, v) :: xs, (l, w) :: ys => k == l && Json.beq v w && Json.beqObj xs ys
  | _, _ => false

end

instance : BEq Json := ⟨Json.beq⟩

/-- Key lookup in a parsed JSON object (`json.loads` keeps one value per
key, so the association list has distinct keys). -/
def lookupKey (kvs : List (String × Json)) (k : String) : Option Json :=
  (kvs.find? fun kv => kv.1 == k).map (·.2)

/-- Whether `needle` occurs as a substring of `hay` (Python `in` on
strings). -/
def strContainsSub (hay needle : String) : Bool :=
  (List.range (hay.length + 1)).any fun i => needle.isPrefixOf (hay.drop i)

/-- Python `"features" in geojson_data` / `not in`: key membership for a
dict, element membership for a list, substring test for a string, and a
`TypeError` for the remaining (non-container) values. -/
def jsonContains (key : String) : Json → Except String Bool
  | .obj kvs => .ok (kvs.any fun kv => kv.1 == key)
  | .arr xs => .ok (xs.any fun x => x == Json.str key)
  | .str s => .ok (strContainsSub s key)
  | .num _ => .error "TypeError: argument of type 'int' is not iterable"
  | .bool _ => .error "TypeError: argument of type 'bool' is not iterable"
  | .null => .error "TypeError: argument of type 'NoneType' is not iterable"

/-- Python subscription `j[k]` with a string key: key lookup for a dict
(raising `KeyError` when absent) and a `TypeError` for every other value. -/
def pyGetItem (j : Json) (k : String) : Except String Json :=
  match j with
  | .obj kvs =>
    match lookupKey kvs k with
    | some v => .ok v
    | none => .error ("KeyError: " ++ k)
  | _ => .error "TypeError: value is not subscriptable by a string"

/-- Python iteration `for x in j`: the elements of a list, the one-character
strings of a string, the keys of a dict, and a `TypeError` otherwise. -/
def pyIter : Json → Except String (List Json)
  | .arr xs => .ok xs
  | .str s => .ok (s.toList.map fun c => Json.str (String.mk [c]))
  | .obj kvs => .ok (kvs.map fun kv => Json.str kv.1)
  | _ => .error "TypeError: value is not iterable"

/-- Python `.keys()`: the keys of a dict, an `AttributeError` otherwise. -/
def pyKeys : Json → Except String (List String)
  | .obj kvs => .ok (kvs.map (·.1))
  | _ => .error "AttributeError: keys"

/-- Run a fallible extraction over each element, failing at the first bad
element, exactly as the handler's `for` loop / set comprehension does. -/
def mapExcept (f : Json → Except String β) : List Json → Except String (List β)
  | [] => .ok []
  | x :: xs => do
    let b ← f x
    let bs ← mapExcept f xs
    .ok (b :: bs)

/-- The success body of the upload endpoint. -/
structure UploadSummary where
  rows : Nat
  columns : List String
  crs : Json
  geometry_types : List Json

/-- `MAX_UPLOAD_SIZE` constant of the handler. -/
def MAX_UPLOAD_SIZE : Nat := 50 * 1024 * 1024

/-- The parsing-and-summary phase of the upload handler, run once the
extension and size checks have passed.  Exceptions map to responses as in
the code: a `ValueError` (decode failure, missing `features`) becomes a 400
with the message under `"error"`; any other exception (`TypeError`,
`KeyError`, `AttributeError` during the membership test or summary
construction) falls to `except Exception` and becomes a 500.
Python's `set()` accumulation is embedded as `eraseDups` (first
occurrences); the claims do not depend on set iteration order. -/
def handleParsed (loads : Except String Json) : ApiResp UploadSummary :=
  match loads with
  | .error m => .error 400 m
  | .ok geojson_data =>
    match jsonContains "features" geojson_data with
    | .error m => .error 500 m
    | .ok false => .error 400 "Uploaded file is not a valid GeoJSON file."
    | .ok true =>
      let build : Except String UploadSummary := do
        let fv ← pyGetItem geojson_data "features"
        let feats ← pyIter fv
        let propKeys ← mapExcept
          (fun f => do pyKeys (← pyGetItem f "properties")) feats
        let geomTypes ← mapExcept
          (fun f => do pyGetItem (← pyGetItem f "geometry") "type") feats
        let crs := match geojson_data with
          | .obj kvs => (lookupKey kvs "crs").getD (Json.str "N/A")
          | _ => Json.str "N/A"
        .ok { rows := feats.length,
              columns := propKeys.flatten.eraseDups,
              crs := crs,
              geometry_types := geomTypes.eraseDups }
      match build with
      | .error m => .error 500 m
      | .ok s => .success s

/-- Embedding of the `POST /upload-geojson/` handler (`upload_geojson`):
extension check, then size check against `MAX_UPLOAD_SIZE` (strict `>`),
then the parsing phase on the (already fully read) content. -/
def upload_geojson (filename : String) (size : Nat)
    (loads : Except String Json) : ApiResp UploadSummary :=
  if ¬ ".geojson".data.isSuffixOf filename.data then
    .error 400 "Uploaded file must be a valid GeoJSON file."
  else if size > MAX_UPLOAD_SIZE then
    .error 400 "File is too large."
  else
    handleParsed loads

/-! ### Specification lemmas for the nearest-feature resolution -/

/-- A nonempty collection always yields a nearest feature. -/
theorem nearestFeature_ne_nil (p : Point) (l : List (Feature α)) (h : l ≠ []) :
    ∃ g d, nearestFeature p l = some (g, d) := by
  cases l with
  | nil => exact absurd rfl h
  | cons f fs =>
    cases htl : nearestFeature p fs with
    | none => exact ⟨f, sqDistance p f.geom, by simp [nearestFeature, htl]⟩
    | some gm =>
      obtain ⟨g, d⟩ := gm
      by_cases hle : sqDistance p f.geom ≤ d
      · exact ⟨f, sqDistance p f.geom, by simp [nearestFeature, htl, hle]⟩
      · exact ⟨g, d, by simp [nearestFeature, htl, hle]⟩

/-- Full characterisation of `nearestFeature`: the returned distance is the
squared distance to the returned feature, it is minimal over the whole
collection, and every feature occurring strictly earlier is strictly
farther (first-occurrence tie-breaking, as pandas `idxmin`). -/
theorem nearestFeature_spec (p : Point) (l : List (Feature α))
    (g : Feature α) (d : ℚ) (h : nearestFeature p l = some (g, d)) :
    d = sqDistance p g.geom ∧ (∀ f ∈ l, d ≤ sqDistance p f.geom) ∧
      ∃ pre post, l = pre ++ g :: post ∧
        ∀ f ∈ pre, d < sqDistance p f.geom := by
  induction l generalizing g d with
  | nil => simp [nearestFeature] at h
  | cons f fs ih =>
    cases htl : nearestFeature p fs with
    | none =>
      have hfs : fs = [] := by
        cases hfs : fs with
        | nil => rfl
        | cons a as =>
          obtain ⟨g', d', hs⟩ := nearestFeature_ne_nil p fs (by simp [hfs])
          rw [hs] at htl; cases htl
      subst hfs
      simp only [nearestFeature, Option.some.injEq, Prod.mk.injEq] at h
      obtain ⟨hg, hd⟩ := h
      subst hg; subst hd
      exact ⟨rfl, by simp, [], [], rfl, by simp⟩
    | some gm =>
      obtain ⟨g', m⟩ := gm
      obtain ⟨hm, hmin, pre, post, hsplit, hpre⟩ := ih g' m htl
      by_cases hle : sqDistance p f.geom ≤ m
      · simp only [nearestFeature, htl, hle, if_true, Option.some.injEq,
          Prod.mk.injEq] at h
        obtain ⟨hg, hd⟩ := h
        subst hg; subst hd
        refine ⟨rfl, ?_, [], fs, rfl, by simp⟩
        intro x hx
        rcases List.mem_cons.mp hx with hx | hx
        · subst hx; exact le_refl _
        · exact le_trans hle (hmin x hx)
      · simp only [nearestFeature, htl, hle, if_false, Option.some.injEq,
          Prod.mk.injEq] at h
        obtain ⟨hg, hd⟩ := h
        subst hg; subst hd
        refine ⟨hm, ?_, f :: pre, post, by simp [hsplit], ?_⟩
        · intro x hx
          rcases List.mem_cons.mp hx with hx | hx
          · subst hx; exact le_of_lt (lt_of_not_le hle)
          · exact hmin x hx
        · intro x hx
          rcases List.mem_cons.mp hx with hx | hx
          · subst hx; exact lt_of_not_le hle
          · exact hpre x hx

/-- C5: for every reprojected query point and nonempty reprojected
collection, the nearest-facility resolution picks a feature whose distance
to the query point is minimal over the collection, and on ties the feature
occurring first in collection order (the features preceding the selected
one are all strictly farther). -/
theorem claim_C5_nearest_first_minimum (p : Point) (l : List (Feature α))
    (h : l ≠ []) :
    ∃ g d, nearestFeature p l = some (g, d) ∧ d = sqDistance p g.geom ∧
      (∀ f ∈ l, d ≤ sqDistance p f.geom) ∧
      ∃ pre post, l = pre ++ g :: post ∧
        ∀ f ∈ pre, d < sqDistance p f.geom := by
  obtain ⟨g, d, hg⟩ := nearestFeature_ne_nil p l h
  obtain ⟨h1, h2, h3⟩ := nearestFeature_spec p l g d hg
  exact ⟨g, d, hg, h1, h2, h3⟩

/-- Witness for C5 at a concrete collection with a distance tie: among two
features at equal distance 1 from the origin, the first is selected. -/
theorem claim_C5_nearest_first_minimum_witness :
    ([(⟨(1, 0), 0⟩ : Feature Nat), ⟨(0, 1), 1⟩] ≠ []) ∧
      (∃ g d, nearestFeature ((0 : ℚ), (0 : ℚ))
          [(⟨(1, 0), 0⟩ : Feature Nat), ⟨(0, 1), 1⟩] = some (g, d) ∧
        d = sqDistance (0, 0) g.geom ∧
        (∀ f ∈ [(⟨(1, 0), 0⟩ : Feature Nat), ⟨(0, 1), 1⟩],
          d ≤ sqDistance (0, 0) f.geom) ∧
        ∃ pre post, [(⟨(1, 0), 0⟩ : Feature Nat), ⟨(0, 1), 1⟩] =
            pre ++ g :: post ∧
          ∀ f ∈ pre, d < sqDistance (0, 0) f.geom) :=
  ⟨by decide,
    claim_C5_nearest_first_minimum ((0 : ℚ), (0 : ℚ))
      [⟨(1, 0), 0⟩, ⟨(0, 1), 1⟩] (by decide)⟩

/-- C7: out-of-range coordinates make both coordinate endpoints answer 400
with "Invalid latitude or longitude.", and a non-positive radius with valid
coordinates makes the radius endpoint answer 400 with "Invalid radius.".
The conclusion holds for EVERY projection function and EVERY dataset, so
the 400 is fixed before any reprojection or distance computation can
contribute. -/
theorem claim_C7_validation_first (proj : Point → Point)
    (gp_gdf : List (Feature α)) (pharmacy_gdf : List (Feature β))
    (latitude longitude radius : ℚ) :
    (¬ ((-90 ≤ latitude ∧ latitude ≤ 90) ∧
        (-180 ≤ longitude ∧ longitude ≤ 180)) →
      nearest_gp_pharmacy proj gp_gdf pharmacy_gdf latitude longitude =
          .error 400 "Invalid latitude or longitude." ∧
        gp_within_radius proj gp_gdf latitude longitude radius =
          .error 400 "Invalid latitude or longitude.") ∧
    ((-90 ≤ latitude ∧ latitude ≤ 90) → (-180 ≤ longitude ∧ longitude ≤ 180) →
      radius ≤ 0 →
      gp_within_radius proj gp_gdf latitude longitude radius =
        .error 400 "Invalid radius.") := by
  constructor
  · intro hbad
    have hcond : ¬ (-90 ≤ latitude ∧ latitude ≤ 90) ∨
        ¬ (-180 ≤ longitude ∧ longitude ≤ 180) := by tauto
    constructor
    · simp only [nearest_gp_pharmacy, if_pos hcond]
    · simp only [gp_within_radius, if_pos hcond]
  · intro hlat hlon hr
    have hcond : ¬ (¬ (-90 ≤ latitude ∧ latitude ≤ 90) ∨
        ¬ (-180 ≤ longitude ∧ longitude ≤ 180)) := by tauto
    simp only [gp_within_radius, if_neg hcond, if_pos hr]

/-- Witness for C7: latitude 91 is rejected by both endpoints, and radius
-5 with valid coordinates is rejected by the radius endpoint. -/
theorem claim_C7_validation_first_witness :
    (nearest_gp_pharmacy (fun p => p) ([] : List (Feature Nat))
        ([] : List (Feature Nat)) 91 0 =
      .error 400 "Invalid latitude or longitude.") ∧
    (gp_within_radius (fun p => p) ([] : List (Feature Nat)) 91 0 1 =
      .error 400 "Invalid latitude or longitude.") ∧
    (gp_within_radius (fun p => p) ([] : List (Feature Nat)) 0 0 (-5) =
      .error 400 "Invalid radius.") := by
  have h1 := claim_C7_validation_first (fun p => p) ([] : List (Feature Nat))
    ([] : List (Feature Nat)) 91 0 1
  have h2 := claim_C7_validation_first (fun p => p) ([] : List (Feature Nat))
    ([] : List (Feature Nat)) 0 0 (-5)
  exact ⟨(h1.1 (by norm_num)).1, (h1.1 (by norm_num)).2,
    h2.2 (by norm_num) (by norm_num) (by norm_num)⟩

/-- C4: with valid coordinates and nonempty datasets, the chained endpoint
returns a pair in which the GP minimises the distance to the projected
query point, and the pharmacy minimises the distance to the LOCATION OF
THAT GP (the result point of step one), not to the query point: the
minimality stated for the pharmacy is with respect to `r.gp.geom`. -/
theorem claim_C4_chained_nearest (proj : Point → Point)
    (gp_gdf : List (Feature α)) (pharmacy_gdf : List (Feature β))
    (latitude longitude : ℚ)
    (hlat : -90 ≤ latitude ∧ latitude ≤ 90)
    (hlon : -180 ≤ longitude ∧ longitude ≤ 180)
    (hgp : gp_gdf ≠ []) (hph : pharmacy_gdf ≠ []) :
    ∃ r : NearestPair α β,
      nearest_gp_pharmacy proj gp_gdf pharmacy_gdf latitude longitude =
        .success r ∧
      r.gp ∈ gp_gdf.map (mapGeom proj) ∧
      r.gpSqDist = sqDistance (proj (longitude, latitude)) r.gp.geom ∧
      (∀ f ∈ gp_gdf.map (mapGeom proj),
        r.gpSqDist ≤ sqDistance (proj (longitude, latitude)) f.geom) ∧
      r.pharmacy ∈ pharmacy_gdf.map (mapGeom proj) ∧
      r.pharmacySqDist = sqDistance r.gp.geom r.pharmacy.geom ∧
      (∀ f ∈ pharmacy_gdf.map (mapGeom proj),
        r.pharmacySqDist ≤ sqDistance r.gp.geom f.geom) := by
  have hcond : ¬ (¬ (-90 ≤ latitude ∧ latitude ≤ 90) ∨
      ¬ (-180 ≤ longitude ∧ longitude ≤ 180)) := by tauto
  have hgpmap : gp_gdf.map (mapGeom proj) ≠ [] := by
    simpa using hgp
  have hphmap : pharmacy_gdf.map (mapGeom proj) ≠ [] := by
    simpa using hph
  obtain ⟨g, dg, hg⟩ :=
    nearestFeature_ne_nil (proj (longitude, latitude))
      (gp_gdf.map (mapGeom proj)) hgpmap
  obtain ⟨q, dq, hq⟩ :=
    nearestFeature_ne_nil g.geom (pharmacy_gdf.map (mapGeom proj)) hphmap
  obtain ⟨hgdist, hgmin, -⟩ :=
    nearestFeature_spec (proj (longitude, latitude))
      (gp_gdf.map (mapGeom proj)) g dg hg
  obtain ⟨hqdist, hqmin, -⟩ :=
    nearestFeature_spec g.geom (pharmacy_gdf.map (mapGeom proj)) q dq hq
  have hgmem : g ∈ gp_gdf.map (mapGeom proj) := by
    obtain ⟨-, -, pre, post, hsplit, -⟩ :=
      nearestFeature_spec (proj (longitude, latitude))
        (gp_gdf.map (mapGeom proj)) g dg hg
    rw [hsplit]; exact List.mem_append_right pre (List.mem_cons_self g post)
  have hqmem : q ∈ pharmacy_gdf.map (mapGeom proj) := by
    obtain ⟨-, -, pre, post, hsplit, -⟩ :=
      nearestFeature_spec g.geom (pharmacy_gdf.map (mapGeom proj)) q dq hq
    rw [hsplit]; exact List.mem_append_right pre (List.mem_cons_self q post)
  have hgpe : ¬ gp_gdf.isEmpty = true := by
    simpa [List.isEmpty_iff] using hgp
  have hphe : ¬ pharmacy_gdf.isEmpty = true := by
    simpa [List.isEmpty_iff] using hph
  refine ⟨⟨g, dg, q, dq⟩, ?_, hgmem, hgdist, hgmin, hqmem, hqdist, hqmin⟩
  simp only [nearest_gp_pharmacy, if_neg hcond, if_neg hgpe, if_neg hphe,
    hg, hq]

/-- Witness for C4: one GP at (1,0) and a pharmacy collection whose member
(3,0) is farther from the origin query point than (−2,0) but closer to the
selected GP — (3,0) is returned, showing the second hop measures from the
GP, not from the query point. -/
theorem claim_C4_chained_nearest_witness :
    (-90 ≤ (0 : ℚ) ∧ (0 : ℚ) ≤ 90) ∧
    ([(⟨(1, 0), 0⟩ : Feature Nat)] ≠ []) ∧
    (∃ r : NearestPair Nat Nat,
      nearest_gp_pharmacy (fun p => p) [⟨(1, 0), 0⟩]
          [⟨(-2, 0), 0⟩, ⟨(3, 0), 1⟩] 0 0 = .success r ∧
      r.gp ∈ [(⟨(1, 0), 0⟩ : Feature Nat)].map (mapGeom fun p => p) ∧
      r.gpSqDist = sqDistance ((0 : ℚ), (0 : ℚ)) r.gp.geom ∧
      (∀ f ∈ [(⟨(1, 0), 0⟩ : Feature Nat)].map (mapGeom fun p => p),
        r.gpSqDist ≤ sqDistance ((0 : ℚ), (0 : ℚ)) f.geom) ∧
      r.pharmacy ∈
        [(⟨(-2, 0), 0⟩ : Feature Nat), ⟨(3, 0), 1⟩].map (mapGeom fun p => p) ∧
      r.pharmacySqDist = sqDistance r.gp.geom r.pharmacy.geom ∧
      (∀ f ∈ [(⟨(-2, 0), 0⟩ : Feature Nat), ⟨(3, 0), 1⟩].map
          (mapGeom fun p => p),
        r.pharmacySqDist ≤ sqDistance r.gp.geom f.geom)) :=
  ⟨by norm_num,
   by decide,
   claim_C4_chained_nearest (fun p => p) [⟨(1, 0), 0⟩]
     [⟨(-2, 0), 0⟩, ⟨(3, 0), 1⟩] 0 0 (by norm_num) (by norm_num)
     (by decide) (by decide)⟩

/-- C8: with valid inputs and at least one feature inside the buffer, the
radius endpoint succeeds and returns exactly the features of the
metric-reprojected collection strictly inside the disc of radius
`radius * 1609.34` metres around the projected centre (membership both
ways), as a sublist of that collection — original order preserved. -/
theorem claim_C8_radius_filter (proj : Point → Point)
    (gp_gdf : List (Feature α)) (latitude longitude radius : ℚ)
    (hlat : -90 ≤ latitude ∧ latitude ≤ 90)
    (hlon : -180 ≤ longitude ∧ longitude ≤ 180)
    (hr : 0 < radius)
    (hhit : ∃ f ∈ gp_gdf.map (mapGeom proj),
      sqDistance (proj (longitude, latitude)) f.geom <
        (radius * 1609.34) ^ 2) :
    ∃ out, gp_within_radius proj gp_gdf latitude longitude radius =
        .success out ∧
      out.Sublist (gp_gdf.map (mapGeom proj)) ∧
      ∀ f, f ∈ out ↔ f ∈ gp_gdf.map (mapGeom proj) ∧
        sqDistance (proj (longitude, latitude)) f.geom <
          (radius * 1609.34) ^ 2 := by
  have hcond : ¬ (¬ (-90 ≤ latitude ∧ latitude ≤ 90) ∨
      ¬ (-180 ≤ longitude ∧ longitude ≤ 180)) := by tauto
  have hrad : ¬ radius ≤ 0 := not_le.mpr hr
  obtain ⟨f0, hf0mem, hf0⟩ := hhit
  have hgp : ¬ gp_gdf.isEmpty = true := by
    rcases gp_gdf with - | -
    · simp at hf0mem
    · simp
  have hmile : METRES_IN_MILE = 1609.34 := rfl
  have hne : ¬ ((gp_gdf.map (mapGeom proj)).filter
      (fun f => decide (sqDistance (proj (longitude, latitude)) f.geom <
        (radius * METRES_IN_MILE) ^ 2))).isEmpty = true := by
    rw [List.isEmpty_eq_true, List.filter_eq_nil_iff]
    push_neg
    exact ⟨f0, hf0mem, by simpa [hmile] using hf0⟩
  refine ⟨(gp_gdf.map (mapGeom proj)).filter
      (fun f => decide (sqDistance (proj (longitude, latitude)) f.geom <
        (radius * METRES_IN_MILE) ^ 2)), ?_, ?_, ?_⟩
  · simp only [gp_within_radius, if_neg hcond, if_neg hrad, if_neg hgp,
      if_neg hne]
  · exact List.filter_sublist _
  · intro f
    rw [List.mem_filter]
    simp [hmile]

/-- Witness for C8: with the identity projection, the feature at distance
1609 metres from the origin is inside the 1-mile (1609.34 m) buffer and
the feature at 1610 metres is not; only the first is returned. -/
theorem claim_C8_radius_filter_witness :
    (0 < (1 : ℚ)) ∧
    (∃ out, gp_within_radius (fun p => p)
        [(⟨(1609, 0), 0⟩ : Feature Nat), ⟨(1610, 0), 1⟩] 0 0 1 =
        .success out ∧
      out.Sublist ([(⟨(1609, 0), 0⟩ : Feature Nat), ⟨(1610, 0), 1⟩].map
        (mapGeom fun p => p)) ∧
      ∀ f, f ∈ out ↔
        f ∈ [(⟨(1609, 0), 0⟩ : Feature Nat), ⟨(1610, 0), 1⟩].map
          (mapGeom fun p => p) ∧
        sqDistance ((0 : ℚ), (0 : ℚ)) f.geom < ((1 : ℚ) * 1609.34) ^ 2) :=
  ⟨by norm_num,
   claim_C8_radius_filter (fun p => p)
     [⟨(1609, 0), 0⟩, ⟨(1610, 0), 1⟩] 0 0 1 (by norm_num) (by norm_num)
     (by norm_num)
     ⟨⟨(1609, 0), 0⟩, by decide, by norm_num [sqDistance]⟩⟩

/-- C9: with valid inputs, a nonempty GP dataset and no feature inside the
buffer, the radius endpoint answers 404 with
"No GPs found within the specified radius" — a not-found outcome, not a
500-class error. -/
theorem claim_C9_radius_empty_404 (proj : Point → Point)
    (gp_gdf : List (Feature α)) (latitude longitude radius : ℚ)
    (hlat : -90 ≤ latitude ∧ latitude ≤ 90)
    (hlon : -180 ≤ longitude ∧ longitude ≤ 180)
    (hr : 0 < radius) (hgp : gp_gdf ≠ [])
    (hmiss : ∀ f ∈ gp_gdf.map (mapGeom proj),
      ¬ sqDistance (proj (longitude, latitude)) f.geom <
        (radius * 1609.34) ^ 2) :
    gp_within_radius proj gp_gdf latitude longitude radius =
      .error 404 "No GPs found within the specified radius" := by
  have hcond : ¬ (¬ (-90 ≤ latitude ∧ latitude ≤ 90) ∨
      ¬ (-180 ≤ longitude ∧ longitude ≤ 180)) := by tauto
  have hrad : ¬ radius ≤ 0 := not_le.mpr hr
  have hgp' : ¬ gp_gdf.isEmpty = true := by
    simpa [List.isEmpty_iff] using hgp
  have hmile : METRES_IN_MILE = 1609.34 := rfl
  have hnil : ((gp_gdf.map (mapGeom proj)).filter
      (fun f => decide (sqDistance (proj (longitude, latitude)) f.geom <
        (radius * METRES_IN_MILE) ^ 2))).isEmpty = true := by
    rw [List.isEmpty_eq_true, List.filter_eq_nil_iff]
    intro f hf
    simpa [hmile] using hmiss f hf
  simp only [gp_within_radius, if_neg hcond, if_neg hrad, if_neg hgp',
    if_pos hnil]

/-- Witness for C9: a single GP 5000 metres from the origin is outside the
1-mile buffer, so the endpoint answers 404. -/
theorem claim_C9_radius_empty_404_witness :
    gp_within_radius (fun p => p) [(⟨(5000, 0), 0⟩ : Feature Nat)] 0 0 1 =
      .error 404 "No GPs found within the specified radius" :=
  claim_C9_radius_empty_404 (fun p => p) [⟨(5000, 0), 0⟩] 0 0 1
    (by norm_num) (by norm_num) (by norm_num) (by decide)
    (by
      intro f hf
      fin_cases hf
      norm_num [sqDistance, mapGeom])

/-! ### Claims about the aggregation endpoint's shared state -/

/-- C10: running `/bins-in-nature-areas` twice in a row from any state
gives the same response and the same final state: the per-request
`bin_count` column assignment recomputes and overwrites the same values,
so the endpoint is idempotent even though it writes into the shared
polygon collections. -/
theorem claim_C10_find_bins_idempotent (within : Point → π → Bool)
    (s : BinsState π) :
    find_bins within (find_bins within s).2 = find_bins within s := by
  by_cases h1 : s.bins_gdf.isEmpty <;>
    by_cases h2 : s.nature_reserves_gdf.isEmpty <;>
      by_cases h3 : s.conservation_areas_gdf.isEmpty <;>
        simp [find_bins, h1, h2, h3]

/-- C1 counterexample: on a loaded state (no `bin_count` columns yet) with
one bin inside the single nature reserve and the single conservation area,
one aggregation request leaves the shared state DIFFERENT from its state
at load time — the handler has written `bin_count` columns into the two
polygon collections. -/
theorem claim_C1_counterexample :
    (find_bins (fun (_ : Point) (_ : Unit) => true)
        ⟨[(0, 0)], [⟨(), "reserve", "det", "desc"⟩], none,
          [⟨(), "area"⟩], none⟩).2 ≠
      (⟨[(0, 0)], [⟨(), "reserve", "det", "desc"⟩], none,
          [⟨(), "area"⟩], none⟩ : BinsState Unit) := by
  decide

/-- C1 amended: the loaded rows of every base collection — geometries and
all properties read by the endpoints — are never changed by any request.
The three handlers that read the GP, pharmacy and bins collections are
pure functions of them (the code reprojects into fresh frames before
adding its scratch `distance` column), and the aggregation handler leaves
the bins collection and the loaded polygon rows intact, touching only the
derived `bin_count` columns of the two polygon frames. -/
theorem claim_C1_amended_rows_never_mutated (within : Point → π → Bool)
    (s : BinsState π) :
    (find_bins within s).2.bins_gdf = s.bins_gdf ∧
    (find_bins within s).2.nature_reserves_gdf = s.nature_reserves_gdf ∧
    (find_bins within s).2.conservation_areas_gdf =
      s.conservation_areas_gdf := by
  by_cases h1 : s.bins_gdf.isEmpty <;>
    by_cases h2 : s.nature_reserves_gdf.isEmpty <;>
      by_cases h3 : s.conservation_areas_gdf.isEmpty <;>
        simp [find_bins, h1, h2, h3]

/-! ### Counting lemmas for the spatial join -/

/-- Sums distribute over pointwise addition under `map`. -/
theorem sum_map_addf (l : List γ) (f g : γ → Nat) :
    (l.map fun x => f x + g x).sum = (l.map f).sum + (l.map g).sum := by
  induction l with
  | nil => simp
  | cons a l ih => simp [ih]; omega

/-- Summing the indicator of one index over `range n` gives 1. -/
theorem indicator_sum (n m : Nat) (h : m < n) :
    ((List.range n).map fun j => if m == j then 1 else 0).sum = 1 := by
  induction n with
  | zero => omega
  | succ n ih =>
    rw [List.range_succ, List.map_append, List.sum_append,
      List.map_cons, List.map_nil, List.sum_cons, List.sum_nil]
    rcases Nat.lt_or_ge m n with hm | hm
    · have hne : (m == n) = false := by
        simp only [beq_eq_false_iff_ne, ne_eq]
        omega
      rw [ih hm, hne]
      simp
    · have hmn : m = n := by omega
      subst hmn
      have hzero : ((List.range m).map fun j =>
          if m == j then 1 else 0).sum = 0 := by
        apply List.sum_eq_zero
        intro x hx
        obtain ⟨j, hj, hxj⟩ := List.mem_map.mp hx
        have hjm : j < m := List.mem_range.mp hj
        have hne : (m == j) = false := by
          simp only [beq_eq_false_iff_ne, ne_eq]
          omega
        rw [hne] at hxj
        simp at hxj
        omega
      rw [hzero]
      simp

/-- Partitioning a pair list by its right index: the per-index match
counts over `range n` sum to the total number of pairs. -/
theorem countsSum (pairs : List (Nat × Nat)) (n : Nat)
    (h : ∀ pr ∈ pairs, pr.2 < n) :
    ((List.range n).map fun j =>
      (pairs.filter fun pr => pr.2 == j).length).sum = pairs.length := by
  induction pairs with
  | nil => simp
  | cons a l ih =>
    have ha : a.2 < n := h a (List.mem_cons_self a l)
    have hl : ∀ pr ∈ l, pr.2 < n := fun pr hpr => h pr (List.mem_cons_of_mem a hpr)
    have hsplit : ∀ j, ((a :: l).filter fun pr => pr.2 == j).length =
        (if a.2 == j then 1 else 0) + (l.filter fun pr => pr.2 == j).length := by
      intro j
      rw [List.filter_cons]
      by_cases hj : (a.2 == j) = true
      · rw [if_pos hj, if_pos hj, List.length_cons]
        omega
      · rw [if_neg hj, if_neg hj]
        omega
    calc ((List.range n).map fun j =>
          ((a :: l).filter fun pr => pr.2 == j).length).sum
        = ((List.range n).map fun j => (if a.2 == j then 1 else 0) +
            (l.filter fun pr => pr.2 == j).length).sum := by
          simp only [hsplit]
      _ = ((List.range n).map fun j => if a.2 == j then 1 else 0).sum +
            ((List.range n).map fun j =>
              (l.filter fun pr => pr.2 == j).length).sum :=
          sum_map_addf _ _ _
      _ = 1 + l.length := by rw [indicator_sum n a.2 ha, ih hl]
      _ = (a :: l).length := by simp; omega

/-- Every member of `enumFrom n l` carries an index below `n + l.length`. -/
theorem mem_enumFrom_fst_lt (l : List γ) (n : Nat) (x : Nat × γ)
    (h : x ∈ List.enumFrom n l) : x.1 < n + l.length := by
  induction l generalizing n with
  | nil => simp [List.enumFrom] at h
  | cons a l ih =>
    rw [List.enumFrom] at h
    rcases List.mem_cons.mp h with h | h
    · subst h; simp
    · have := ih (n + 1) h
      simp [List.length_cons]
      omega

/-- The right index of every spatial-join pair is a valid polygon index. -/
theorem sjoin_snd_lt (within : Point → π → Bool) (pts : List Point)
    (polys : List π) (pr : Nat × Nat)
    (h : pr ∈ sjoinWithin within pts polys) : pr.2 < polys.length := by
  rw [sjoinWithin, List.mem_flatMap] at h
  obtain ⟨ip, -, hpr⟩ := h
  rw [List.mem_filterMap] at hpr
  obtain ⟨jq, hjq, hif⟩ := hpr
  by_cases hw : within ip.2 jq.2 = true
  · rw [if_pos hw] at hif
    cases hif
    have := mem_enumFrom_fst_lt polys 0 jq hjq
    simpa using this
  · rw [if_neg hw] at hif
    cases hif

/-- Length of the inner `filterMap` of the join: the number of polygons of
the (indexed) list satisfying the predicate. -/
theorem filterMap_if_length (l : List γ) (w : γ → Bool) (g : γ → δ) :
    (l.filterMap fun x => if w x then some (g x) else none).length =
      (l.filter w).length := by
  induction l with
  | nil => rfl
  | cons a l ih =>
    rw [List.filterMap_cons, List.filter_cons]
    by_cases hw : w a = true
    · simp [hw, ih]
    · simp [hw, ih]

/-- Filtering an enumerated list on the payload has the same length as
filtering the plain list. -/
theorem enumFrom_filter_snd_length (l : List γ) (n : Nat) (w : γ → Bool) :
    ((List.enumFrom n l).filter fun x => w x.2).length =
      (l.filter w).length := by
  induction l generalizing n with
  | nil => rfl
  | cons a l ih =>
    rw [List.enumFrom, List.filter_cons, List.filter_cons]
    by_cases hw : w a = true
    · simp only [hw, if_true]
      simp [ih (n + 1)]
    · simp only [hw]
      simp [ih (n + 1)]

/-- Mapping a function of the payload over an enumerated list and summing
equals summing that function over the plain list. -/
theorem enumFrom_map_snd_sum (l : List γ) (n : Nat) (c : γ → Nat) :
    ((List.enumFrom n l).map fun x => c x.2).sum = (l.map c).sum := by
  induction l generalizing n with
  | nil => rfl
  | cons a l ih =>
    rw [List.enumFrom]
    simp [ih (n + 1)]

/-- The total number of join pairs is the sum, over the points, of the
number of polygons containing each point. -/
theorem sjoin_length (within : Point → π → Bool) (pts : List Point)
    (polys : List π) :
    (sjoinWithin within pts polys).length =
      (pts.map fun p => (polys.filter fun q => within p q).length).sum := by
  rw [sjoinWithin, List.length_flatMap]
  have hinner : ∀ ip : Nat × Point,
      (polys.enum.filterMap fun jq =>
        if within ip.2 jq.2 then some (ip.1, jq.1) else none).length =
      (polys.filter fun q => within ip.2 q).length := by
    intro ip
    rw [show (fun jq : Nat × π =>
        if within ip.2 jq.2 then some (ip.1, jq.1) else none) =
      (fun jq : Nat × π =>
        if (fun x : Nat × π => within ip.2 x.2) jq then
          some ((fun x : Nat × π => (ip.1, x.1)) jq) else none) from rfl,
      filterMap_if_length]
    exact enumFrom_filter_snd_length polys 0 (fun q => within ip.2 q)
  simp only [Function.comp_def, hinner]
  have hsum := enumFrom_map_snd_sum pts 0
    (fun p => (polys.filter fun q => within p q).length)
  simpa using hsum

/-- When every point lies in at most one polygon, the number of join pairs
is the number of matched points. -/
theorem pairs_eq_matched (within : Point → π → Bool) (pts : List Point)
    (polys : List π)
    (h : ∀ p ∈ pts, (polys.filter fun q => within p q).length ≤ 1) :
    (pts.map fun p => (polys.filter fun q => within p q).length).sum =
      matchedPoints within pts polys := by
  induction pts with
  | nil => rfl
  | cons p pts ih =>
    have hp := h p (List.mem_cons_self p pts)
    have hrest := ih fun x hx => h x (List.mem_cons_of_mem p hx)
    simp only [matchedPoints] at hrest ⊢
    rw [List.map_cons, List.sum_cons, List.filter_cons, hrest]
    by_cases hany : (polys.any fun q => within p q) = true
    · obtain ⟨q, hq, hwq⟩ := List.any_eq_true.mp hany
      have hqf : q ∈ polys.filter fun q => within p q :=
        List.mem_filter.mpr ⟨hq, hwq⟩
      have hpos : 0 < (polys.filter fun q => within p q).length :=
        List.length_pos.mpr (List.ne_nil_of_mem hqf)
      rw [if_pos hany, List.length_cons]
      omega
    · have hnil : (polys.filter fun q => within p q) = [] := by
        rw [List.filter_eq_nil_iff]
        intro q hq hwq
        exact hany (List.any_eq_true.mpr ⟨q, hq, hwq⟩)
      rw [if_neg hany, hnil, List.length_nil]
      omega

/-- Mapping a projection that only reads the left component over a zip
recovers the mapped left list. -/
theorem map_of_zip_fst {A B C D : Type} (rows : List A) (counts : List B)
    (f : A → B → C) (g : C → D) (gn : A → D)
    (hf : ∀ a b, g (f a b) = gn a) (h : rows.length = counts.length) :
    ((rows.zip counts).map fun rc => f rc.1 rc.2).map g = rows.map gn := by
  induction rows generalizing counts with
  | nil => simp
  | cons a l ih =>
    cases counts with
    | nil => simp at h
    | cons b bs =>
      simp only [List.zip_cons_cons, List.map_cons, hf]
      rw [ih bs (by simpa using h)]

/-- Mapping a projection that only reads the right component over a zip
recovers the right list. -/
theorem map_of_zip_snd {A B C : Type} (rows : List A) (counts : List B)
    (f : A → B → C) (g : C → B)
    (hf : ∀ a b, g (f a b) = b) (h : rows.length = counts.length) :
    ((rows.zip counts).map fun rc => f rc.1 rc.2).map g = counts := by
  induction rows generalizing counts with
  | nil => cases counts with
    | nil => simp
    | cons b bs => simp at h
  | cons a l ih =>
    cases counts with
    | nil => simp at h
    | cons b bs =>
      simp only [List.zip_cons_cons, List.map_cons, hf]
      rw [ih bs (by simpa using h)]

/-- C3 counterexample: one bin lying inside BOTH of two overlapping nature
reserves.  The aggregation reports bin_count 1 for each reserve, so the
counts over the reserve collection sum to 2, while only 1 point feature is
matched by the join — and that single point matches 2 polygons in the one
join, contradicting the claim's "each point matches at most one polygon
per join" and its sum-equals-matched-points equality. -/
theorem claim_C3_counterexample :
    (find_bins (fun (_ : Point) (_ : Unit) => true)
        ⟨[(0, 0)], [⟨(), "a", "b", "c"⟩, ⟨(), "d", "e", "f"⟩], none,
          [⟨(), "g"⟩], none⟩).1 =
      .success ⟨[⟨"a", "b", "c", 1⟩, ⟨"d", "e", "f", 1⟩], [⟨"g", 1⟩]⟩ ∧
    (sjoinWithin (fun (_ : Point) (_ : Unit) => true) [(0, 0)]
      [(), ()]).length = 2 ∧
    matchedPoints (fun (_ : Point) (_ : Unit) => true) [(0, 0)] [(), ()] = 1 := by
  refine ⟨?_, by decide, by decide⟩
  decide

/-- C3 amended: with all three datasets nonempty, the aggregation output
lists every polygon of each collection exactly once, in original polygon
order (positional name correspondence), including polygons with
bin_count 0; each polygon's bin_count is the number of join pairs whose
right index is that polygon; the counts over one collection sum to the
TOTAL NUMBER OF JOIN PAIRS of that collection's spatial join; and under
the additional assumption that each point lies within at most one polygon
of the collection, that sum equals the number of matched point features. -/
theorem claim_C3_amended_aggregation (within : Point → π → Bool)
    (s : BinsState π) (hb : s.bins_gdf ≠ [])
    (hn : s.nature_reserves_gdf ≠ []) (hc : s.conservation_areas_gdf ≠ []) :
    ∃ r : BinsReport, (find_bins within s).1 = .success r ∧
      r.nature_reserve_bin_count.map (·.name) =
        s.nature_reserves_gdf.map (·.lv_name) ∧
      r.nature_reserve_bin_count.map (·.binCount) =
        (List.range s.nature_reserves_gdf.length).map (fun j =>
          ((sjoinWithin within s.bins_gdf
            (s.nature_reserves_gdf.map (·.geometry))).filter
              fun pr => pr.2 == j).length) ∧
      (r.nature_reserve_bin_count.map (·.binCount)).sum =
        (sjoinWithin within s.bins_gdf
          (s.nature_reserves_gdf.map (·.geometry))).length ∧
      ((∀ p ∈ s.bins_gdf, ((s.nature_reserves_gdf.map (·.geometry)).filter
          fun q => within p q).length ≤ 1) →
        (r.nature_reserve_bin_count.map (·.binCount)).sum =
          matchedPoints within s.bins_gdf
            (s.nature_reserves_gdf.map (·.geometry))) ∧
      r.conservation_area_bin_count.map (·.name) =
        s.conservation_areas_gdf.map (·.name) ∧
      r.conservation_area_bin_count.map (·.binCount) =
        (List.range s.conservation_areas_gdf.length).map (fun j =>
          ((sjoinWithin within s.bins_gdf
            (s.conservation_areas_gdf.map (·.geometry))).filter
              fun pr => pr.2 == j).length) ∧
      (r.conservation_area_bin_count.map (·.binCount)).sum =
        (sjoinWithin within s.bins_gdf
          (s.conservation_areas_gdf.map (·.geometry))).length ∧
      ((∀ p ∈ s.bins_gdf, ((s.conservation_areas_gdf.map (·.geometry)).filter
          fun q => within p q).length ≤ 1) →
        (r.conservation_area_bin_count.map (·.binCount)).sum =
          matchedPoints within s.bins_gdf
            (s.conservation_areas_gdf.map (·.geometry))) := by
  have h1 : ¬ s.bins_gdf.isEmpty = true := by
    simpa [List.isEmpty_iff] using hb
  have h2 : ¬ s.nature_reserves_gdf.isEmpty = true := by
    simpa [List.isEmpty_iff] using hn
  have h3 : ¬ s.conservation_areas_gdf.isEmpty = true := by
    simpa [List.isEmpty_iff] using hc
  have heq : (find_bins within s).1 = .success
      ⟨(s.nature_reserves_gdf.zip (binCounts within s.bins_gdf
          (s.nature_reserves_gdf.map (·.geometry)))).map (fun rc =>
          ReserveEntry.mk rc.1.lv_name rc.1.lv_details rc.1.description rc.2),
        (s.conservation_areas_gdf.zip (binCounts within s.bins_gdf
          (s.conservation_areas_gdf.map (·.geometry)))).map (fun rc =>
          AreaEntry.mk rc.1.name rc.2)⟩ := by
    simp only [find_bins, if_neg h1, if_neg h2, if_neg h3]
  have hlen_nr : s.nature_reserves_gdf.length =
      (binCounts within s.bins_gdf
        (s.nature_reserves_gdf.map (·.geometry))).length := by
    simp [binCounts]
  have hlen_ca : s.conservation_areas_gdf.length =
      (binCounts within s.bins_gdf
        (s.conservation_areas_gdf.map (·.geometry))).length := by
    simp [binCounts]
  have hcnt_nr : ((s.nature_reserves_gdf.zip (binCounts within s.bins_gdf
      (s.nature_reserves_gdf.map (·.geometry)))).map (fun rc =>
        ReserveEntry.mk rc.1.lv_name rc.1.lv_details rc.1.description
          rc.2)).map (·.binCount) =
      binCounts within s.bins_gdf (s.nature_reserves_gdf.map (·.geometry)) :=
    map_of_zip_snd s.nature_reserves_gdf _
      (fun a b => ReserveEntry.mk a.lv_name a.lv_details a.description b)
      (fun e => e.binCount) (fun a b => rfl) hlen_nr
  have hcnt_ca : ((s.conservation_areas_gdf.zip (binCounts within s.bins_gdf
      (s.conservation_areas_gdf.map (·.geometry)))).map (fun rc =>
        AreaEntry.mk rc.1.name rc.2)).map (·.binCount) =
      binCounts within s.bins_gdf
        (s.conservation_areas_gdf.map (·.geometry)) :=
    map_of_zip_snd s.conservation_areas_gdf _
      (fun a b => AreaEntry.mk a.name b)
      (fun e => e.binCount) (fun a b => rfl) hlen_ca
  have hsum_nr : (binCounts within s.bins_gdf
      (s.nature_reserves_gdf.map (·.geometry))).sum =
      (sjoinWithin within s.bins_gdf
        (s.nature_reserves_gdf.map (·.geometry))).length := by
    rw [binCounts]
    exact countsSum _ _ (fun pr hpr => by
      simpa using sjoin_snd_lt within s.bins_gdf _ pr hpr)
  have hsum_ca : (binCounts within s.bins_gdf
      (s.conservation_areas_gdf.map (·.geometry))).sum =
      (sjoinWithin within s.bins_gdf
        (s.conservation_areas_gdf.map (·.geometry))).length := by
    rw [binCounts]
    exact countsSum _ _ (fun pr hpr => by
      simpa using sjoin_snd_lt within s.bins_gdf _ pr hpr)
  refine ⟨_, heq, ?_, ?_, ?_, ?_, ?_, ?_, ?_, ?_⟩
  · exact map_of_zip_fst s.nature_reserves_gdf _
      (fun a b => ReserveEntry.mk a.lv_name a.lv_details a.description b)
      (fun e => e.name) (fun a => a.lv_name) (fun a b => rfl) hlen_nr
  · rw [hcnt_nr, binCounts, List.length_map]
  · rw [hcnt_nr, hsum_nr]
  · intro hdisj
    rw [hcnt_nr, hsum_nr, sjoin_length]
    exact pairs_eq_matched within s.bins_gdf _ hdisj
  · exact map_of_zip_fst s.conservation_areas_gdf _
      (fun a b => AreaEntry.mk a.name b)
      (fun e => e.name) (fun a => a.name) (fun a b => rfl) hlen_ca
  · rw [hcnt_ca, binCounts, List.length_map]
  · rw [hcnt_ca, hsum_ca]
  · intro hdisj
    rw [hcnt_ca, hsum_ca, sjoin_length]
    exact pairs_eq_matched within s.bins_gdf _ hdisj

/-- Witness for C3 (amended) at a one-bin, one-reserve, one-area state
with an always-true containment test. -/
theorem claim_C3_amended_aggregation_witness :
    ((⟨[(0, 0)], [⟨(), "r", "d", "e"⟩], none, [⟨(), "c"⟩], none⟩ :
        BinsState Unit).bins_gdf ≠ []) ∧
    ((⟨[(0, 0)], [⟨(), "r", "d", "e"⟩], none, [⟨(), "c"⟩], none⟩ :
        BinsState Unit).nature_reserves_gdf ≠ []) ∧
    ((⟨[(0, 0)], [⟨(), "r", "d", "e"⟩], none, [⟨(), "c"⟩], none⟩ :
        BinsState Unit).conservation_areas_gdf ≠ []) ∧
    (∃ r : BinsReport,
      (find_bins (fun (_ : Point) (_ : Unit) => true)
        (⟨[(0, 0)], [⟨(), "r", "d", "e"⟩], none, [⟨(), "c"⟩], none⟩ :
          BinsState Unit)).1 = .success r ∧
      r.nature_reserve_bin_count.map (·.name) =
        (⟨[(0, 0)], [⟨(), "r", "d", "e"⟩], none, [⟨(), "c"⟩], none⟩ :
          BinsState Unit).nature_reserves_gdf.map (·.lv_name) ∧
      r.nature_reserve_bin_count.map (·.binCount) =
        (List.range (⟨[(0, 0)], [⟨(), "r", "d", "e"⟩], none, [⟨(), "c"⟩],
            none⟩ : BinsState Unit).nature_reserves_gdf.length).map (fun j =>
          ((sjoinWithin (fun (_ : Point) (_ : Unit) => true) [(0, 0)]
            ((⟨[(0, 0)], [⟨(), "r", "d", "e"⟩], none, [⟨(), "c"⟩], none⟩ :
              BinsState Unit).nature_reserves_gdf.map (·.geometry))).filter
              fun pr => pr.2 == j).length) ∧
      (r.nature_reserve_bin_count.map (·.binCount)).sum =
        (sjoinWithin (fun (_ : Point) (_ : Unit) => true) [(0, 0)]
          ((⟨[(0, 0)], [⟨(), "r", "d", "e"⟩], none, [⟨(), "c"⟩], none⟩ :
            BinsState Unit).nature_reserves_gdf.map (·.geometry))).length ∧
      ((∀ p ∈ ([((0 : ℚ), (0 : ℚ))] : List Point),
          (((⟨[(0, 0)], [⟨(), "r", "d", "e"⟩], none, [⟨(), "c"⟩], none⟩ :
            BinsState Unit).nature_reserves_gdf.map (·.geometry)).filter
            fun q => (fun (_ : Point) (_ : Unit) => true) p q).length ≤ 1) →
        (r.nature_reserve_bin_count.map (·.binCount)).sum =
          matchedPoints (fun (_ : Point) (_ : Unit) => true) [(0, 0)]
            ((⟨[(0, 0)], [⟨(), "r", "d", "e"⟩], none, [⟨(), "c"⟩], none⟩ :
              BinsState Unit).nature_reserves_gdf.map (·.geometry))) ∧
      r.conservation_area_bin_count.map (·.name) =
        (⟨[(0, 0)], [⟨(), "r", "d", "e"⟩], none, [⟨(), "c"⟩], none⟩ :
          BinsState Unit).conservation_areas_gdf.map (·.name) ∧
      r.conservation_area_bin_count.map (·.binCount) =
        (List.range (⟨[(0, 0)], [⟨(), "r", "d", "e"⟩], none, [⟨(), "c"⟩],
            none⟩ : BinsState Unit).conservation_areas_gdf.length).map (fun j =>
          ((sjoinWithin (fun (_ : Point) (_ : Unit) => true) [(0, 0)]
            ((⟨[(0, 0)], [⟨(), "r", "d", "e"⟩], none, [⟨(), "c"⟩], none⟩ :
              BinsState Unit).conservation_areas_gdf.map (·.geometry))).filter
              fun pr => pr.2 == j).length) ∧
      (r.conservation_area_bin_count.map (·.binCount)).sum =
        (sjoinWithin (fun (_ : Point) (_ : Unit) => true) [(0, 0)]
          ((⟨[(0, 0)], [⟨(), "r", "d", "e"⟩], none, [⟨(), "c"⟩], none⟩ :
            BinsState Unit).conservation_areas_gdf.map (·.geometry))).length ∧
      ((∀ p ∈ ([((0 : ℚ), (0 : ℚ))] : List Point),
          (((⟨[(0, 0)], [⟨(), "r", "d", "e"⟩], none, [⟨(), "c"⟩], none⟩ :
            BinsState Unit).conservation_areas_gdf.map (·.geometry)).filter
            fun q => (fun (_ : Point) (_ : Unit) => true) p q).length ≤ 1) →
        (r.conservation_area_bin_count.map (·.binCount)).sum =
          matchedPoints (fun (_ : Point) (_ : Unit) => true) [(0, 0)]
            ((⟨[(0, 0)], [⟨(), "r", "d", "e"⟩], none, [⟨(), "c"⟩], none⟩ :
              BinsState Unit).conservation_areas_gdf.map (·.geometry)))) :=
  ⟨by decide, by decide, by decide,
    claim_C3_amended_aggregation (fun (_ : Point) (_ : Unit) => true)
      (⟨[(0, 0)], [⟨(), "r", "d", "e"⟩], none, [⟨(), "c"⟩], none⟩ :
        BinsState Unit) (by decide) (by decide) (by decide)⟩

/-! ### Claims about the upload endpoint -/

/-- C2 counterexample: a `.geojson` upload whose content size is EXACTLY
50 MiB (50 * 1024 * 1024 bytes) is NOT rejected as too large — the
size check uses a strict `>`, so the file proceeds to parsing and, with
well-formed content, succeeds.  (A valid JSON document of exactly this
size exists: pad any smaller one with trailing whitespace.) -/
theorem claim_C2_counterexample :
    upload_geojson "a.geojson" (50 * 1024 * 1024)
        (.ok (Json.obj [("features", Json.arr [])])) =
      .success ⟨0, [], Json.str "N/A", []⟩ := by
  rfl

/-- C2 amended: a `.geojson` upload STRICTLY LARGER than 50 MiB is
rejected 400 "File is too large." independently of the parse result
(`loads` is universally quantified, so no parsing outcome can influence
the rejection), while any size up to and including the cap proceeds to
the parsing phase. -/
theorem claim_C2_amended_size_cap (filename : String) (size : Nat)
    (loads : Except String Json)
    (hext : ".geojson".data.isSuffixOf filename.data = true) :
    (MAX_UPLOAD_SIZE < size →
      upload_geojson filename size loads = .error 400 "File is too large.") ∧
    (size ≤ MAX_UPLOAD_SIZE →
      upload_geojson filename size loads = handleParsed loads) := by
  constructor
  · intro hbig
    rw [upload_geojson, if_neg (by simp [hext]), if_pos (by omega)]
  · intro hsmall
    rw [upload_geojson, if_neg (by simp [hext]), if_neg (by omega)]

/-- Witness for C2 (amended): one byte over the cap is rejected without
parsing; content at the cap is parsed. -/
theorem claim_C2_amended_size_cap_witness :
    (".geojson".data.isSuffixOf "a.geojson".data = true) ∧
    (MAX_UPLOAD_SIZE < 50 * 1024 * 1024 + 1 →
      upload_geojson "a.geojson" (50 * 1024 * 1024 + 1)
        (.ok (Json.obj [("features", Json.arr [])])) =
        .error 400 "File is too large.") ∧
    (50 * 1024 * 1024 ≤ MAX_UPLOAD_SIZE →
      upload_geojson "a.geojson" (50 * 1024 * 1024)
        (.ok (Json.obj [("features", Json.arr [])])) =
        handleParsed (.ok (Json.obj [("features", Json.arr [])]))) :=
  ⟨by decide,
    (claim_C2_amended_size_cap "a.geojson" (50 * 1024 * 1024 + 1)
      (.ok (Json.obj [("features", Json.arr [])])) (by decide)).1,
    (claim_C2_amended_size_cap "a.geojson" (50 * 1024 * 1024)
      (.ok (Json.obj [("features", Json.arr [])])) (by decide)).2⟩

/-- C6 counterexample: content that parses to the JSON number `5` — which
certainly lacks a top-level feature list — produces a 500 response, not
the claimed 400: Python's `"features" not in 5` raises `TypeError`, which
is caught by `except Exception`, not by `except ValueError`. -/
theorem claim_C6_counterexample :
    respStatus (upload_geojson "a.geojson" 1 (.ok (Json.num 5))) = 500 := by
  rfl

/-- C6 amended: for a `.geojson` upload within the size cap, (a) content
that fails to parse yields 400 carrying the decode message under the
"error" key; (b) content that parses to an object, array or string on
which the `"features"` membership test is false yields 400
"Uploaded file is not a valid GeoJSON file." — decided by that membership
test alone, before any feature property is read; (c) content parsing to a
number, boolean or null makes the membership test itself raise `TypeError`
and the endpoint answers 500, not 400. -/
theorem claim_C6_amended_validity (filename : String) (size : Nat)
    (loads : Except String Json)
    (hext : ".geojson".data.isSuffixOf filename.data = true)
    (hsize : size ≤ MAX_UPLOAD_SIZE) :
    (∀ m, loads = .error m →
      upload_geojson filename size loads = .error 400 m) ∧
    (∀ j, loads = .ok j → jsonContains "features" j = .ok false →
      upload_geojson filename size loads =
        .error 400 "Uploaded file is not a valid GeoJSON file.") ∧
    (∀ j m, loads = .ok j → jsonContains "features" j = .error m →
      upload_geojson filename size loads = .error 500 m) := by
  have hpass : upload_geojson filename size loads = handleParsed loads := by
    rw [upload_geojson, if_neg (by simp [hext]), if_neg (by omega)]
  refine ⟨?_, ?_, ?_⟩
  · intro m hm
    rw [hpass, hm]
    rfl
  · intro j hj hfeat
    rw [hpass, hj]
    simp only [handleParsed, hfeat]
  · intro j m hj hfeat
    rw [hpass, hj]
    simp only [handleParsed, hfeat]

/-- Witness for C6 (amended): a decode failure gives 400 with its message;
an object without "features" gives the fixed 400 message; the number 5
gives 500 with the TypeError message. -/
theorem claim_C6_amended_validity_witness :
    (".geojson".data.isSuffixOf "a.geojson".data = true) ∧ (1 ≤ MAX_UPLOAD_SIZE) ∧
    (upload_geojson "a.geojson" 1 (.error "Expecting value") =
      .error 400 "Expecting value") ∧
    (upload_geojson "a.geojson" 1 (.ok (Json.obj [("type", Json.str "x")])) =
      .error 400 "Uploaded file is not a valid GeoJSON file.") ∧
    (upload_geojson "a.geojson" 1 (.ok (Json.num 5)) =
      .error 500 "TypeError: argument of type 'int' is not iterable") := by
  refine ⟨by decide, by norm_num [MAX_UPLOAD_SIZE], ?_, ?_, ?_⟩
  · exact (claim_C6_amended_validity "a.geojson" 1 (.error "Expecting value")
      (by decide) (by norm_num [MAX_UPLOAD_SIZE])).1 "Expecting value" rfl
  · exact (claim_C6_amended_validity "a.geojson" 1
      (.ok (Json.obj [("type", Json.str "x")])) (by decide)
      (by norm_num [MAX_UPLOAD_SIZE])).2.1 (Json.obj [("type", Json.str "x")])
      rfl (by rfl)
  · exact (claim_C6_amended_validity "a.geojson" 1 (.ok (Json.num 5))
      (by decide) (by norm_num [MAX_UPLOAD_SIZE])).2.2 (Json.num 5)
      "TypeError: argument of type 'int' is not iterable" rfl (by rfl)

end Geodata
